import Mathlib

/-!
Shallow embedding of `twisted/conch/scripts/ckeygen.py` (the `ckeygen`
command): filename defaulting, overwrite confirmation, passphrase
collection, private-key subtype defaulting, round-trip verification in
`changePassPhrase`, and the write/chmod sequence of `_saveKey`.

The cryptography provider (`twisted.conch.ssh.keys`) is abstracted as a
record of oracles `KeyOps`; the filesystem is a map from paths to
contents; interactive input lines and `getpass` answers are explicit
arguments (streams where the source loops).
-/

set_option autoImplicit false

namespace Ckeygen

/-- Python truthiness of an optional string: `None` and `""` are falsy. -/
def pyTruthy : Option String → Bool
  | none => false
  | some s => s ≠ ""

/-- Outcome of one ckeygen invocation: normal return, `sys.exit(msg)`, an
uncaught exception, or exhaustion of the fuel given to an interactive loop
(the source loop would still be running). -/
inductive CkOutcome where
  | done
  | exit (msg : String)
  | raised (msg : String)
  | diverged
deriving DecidableEq

/-- The two exceptions of `twisted.conch.ssh.keys` that `ckeygen` handles
when parsing key material. -/
inductive LoadErr where
  | encrypted (msg : String)
  | badKey (msg : String)
deriving DecidableEq

/-- `keys.FingerprintFormats`. -/
inductive FingerprintFormat where
  | MD5_HEX
  | SHA256_BASE64
deriving DecidableEq

/-- Abstract interface to the key cryptography provider
(`twisted.conch.ssh.keys`): `K` is the type of in-memory keys, `B` the
type of serialized key bytes.  `load b pw` is `keys.Key.fromString(b,
passphrase=pw)` (also the parsing part of `fromFile`); `toOpenSSH k sub pw`
is `k.toString("openssh", subtype=sub, passphrase=pw)`; `publicOpenSSH k c`
is `k.public().toString("openssh", comment=c)`. -/
structure KeyOps (K B : Type) where
  load : B → Option String → Except LoadErr K
  keyType : K → String
  toOpenSSH : K → String → String → Except String B
  publicOpenSSH : K → Option String → B
  fingerprint : K → FingerprintFormat → String
  size : K → Nat

/-- The filesystem, as path to content. -/
def FS (B : Type) := String → Option B

/-- The command line options consumed by the embedded operations
(`GeneralOptions`): `--filename`, `--bits`, `--pass`, `--newpass`,
`--private-key-subtype`, `--no-passphrase`, `--format`. -/
structure Options where
  filename : Option String
  bits : Option String
  pass : Option String
  newpass : Option String
  subtype : Option String
  noPassphrase : Bool
  format : String

/-- `_defaultPrivateKeySubtype`: `"v1"` for Ed25519 (no PEM form is defined
for it), `"PEM"` for every other key type. -/
def defaultPrivateKeySubtype (keyType : String) : String :=
  if keyType = "Ed25519" then "v1" else "PEM"

/-- `enumrepresentation`: map the `--format` option string to a
`FingerprintFormats` member, raising `BadFingerPrintFormat` otherwise. -/
def enumrepresentation (format : String) : Except String FingerprintFormat :=
  if format = "md5-hex" then Except.ok FingerprintFormat.MD5_HEX
  else if format = "sha256-base64" then Except.ok FingerprintFormat.SHA256_BASE64
  else Except.error ("Unsupported fingerprint format: " ++ format)

/-- `_getKeyOrDefault`: use `options["filename"]` when set, otherwise offer
`~/.ssh/id_<keyTypeName>` (on Windows a `%HOMEPATH %` literal that
`os.path.expanduser` leaves unchanged) and let the collected input line
override it; an empty line keeps the default.  `home` stands for the
expansion of `~`. -/
def getKeyOrDefault (filename : Option String) (isWindows : Bool) (home : String)
    (inputLine : String) (keyTypeName : String) : String :=
  if pyTruthy filename then filename.getD ""
  else
    let base := if isWindows then "%HOMEPATH %\\.ssh\\id_" ++ keyTypeName
      else home ++ "/.ssh/id_" ++ keyTypeName
    if inputLine ≠ "" then inputLine else base

/-- Python `str.strip()`: drop whitespace from both ends of the collected
input line. -/
def pyStrip (s : String) : String :=
  String.mk ((s.data.dropWhile Char.isWhitespace).reverse.dropWhile Char.isWhitespace).reverse

/-- The interactive passphrase confirmation loop shared by `_saveKey` and
`changePassPhrase`: each round prompts two entries and accepts when they
match, otherwise moves to the next round.  `stream n` is the n-th `getpass`
answer, so round `k` reads entries `2*k` and `2*k+1`.  The fuel bounds how
many rounds are examined; `none` means the loop is still running after
that many rounds.  On success, returns the round index and the accepted
entry. -/
def passphraseLoopAux {α : Type} [DecidableEq α] (stream : Nat → α) :
    Nat → Nat → Option (Nat × α)
  | 0, _ => none
  | fuel + 1, k =>
    if stream (2 * k) = stream (2 * k + 1) then some (k, stream (2 * k))
    else passphraseLoopAux stream fuel (k + 1)

/-- The passphrase confirmation loop as entered, at round 0. -/
def passphraseLoop {α : Type} [DecidableEq α] (stream : Nat → α) (fuel : Nat) :
    Option (Nat × α) :=
  passphraseLoopAux stream fuel 0

/-- Filesystem write events issued by `_saveKey`, in program order:
`FilePath.setContent` and `FilePath.chmod`. -/
inductive FsEvent (B : Type) where
  | setContent (path : String) (content : B)
  | chmod (path : String) (mode : Nat)
deriving DecidableEq

/-- A filesystem state carrying, per path, the content and the permission
mode bits. -/
def FsPerm (B : Type) := String → Option (B × Nat)

/-- Modelled from the spec: `twisted.python.filepath.FilePath.setContent`
is not among the reviewed sources.  Per the spec the private write is a
"write then restrict" sequence ("a strict implementation should create the
file pre-restricted to avoid a world-readable window"), so `setContent`
installs the new content under the process default creation mode
`defaultMode`, and `chmod` then sets an explicit mode. -/
def applyEvent {B : Type} (defaultMode : Nat) (st : FsPerm B) : FsEvent B → FsPerm B
  | FsEvent.setContent p b => fun q => if q = p then some (b, defaultMode) else st q
  | FsEvent.chmod p m => fun q => if q = p then (st q).map (fun cm => (cm.1, m)) else st q

/-- All intermediate filesystem states along an event trace, the initial
state first. -/
def fsStates {B : Type} (defaultMode : Nat) (st : FsPerm B) : List (FsEvent B) → List (FsPerm B)
  | [] => [st]
  | e :: es => st :: fsStates defaultMode (applyEvent defaultMode st e) es

/-- The filesystem state after a whole event trace. -/
def runEvents {B : Type} (defaultMode : Nat) (st : FsPerm B) (es : List (FsEvent B)) : FsPerm B :=
  es.foldl (applyEvent defaultMode) st

/-- The `KeyTypeMapping` dict of `_saveKey` (`key.type()` to the name used
in the default path); a miss is a `KeyError`. -/
def keyTypeMapping : String → Option String
  | "EC" => some "ecdsa"
  | "Ed25519" => some "ed25519"
  | "RSA" => some "rsa"
  | "DSA" => some "dsa"
  | _ => none

/-- Result of `_saveKey`: the write events issued (in order), the resolved
private path, the final value of `options["private-key-subtype"]` (`none`
when execution stopped before it was resolved), and the outcome. -/
structure SKResult (B : Type) where
  events : List (FsEvent B)
  filename : String
  subtypeUsed : Option String
  outcome : CkOutcome

/-- `_saveKey`: resolve the target path (`inputLine` answers the
`_getKeyOrDefault` prompt, `saveLine` the `_inputSaveFile` prompt), confirm
overwrite with answer `yn` when the file exists, resolve the passphrase
(`--no-passphrase`, then `--pass`, then the confirmation loop over
`passStream`), resolve the subtype, then write the private key, chmod it
to `0o100600`, write the public key, and only then map the fingerprint
format. -/
def saveKey {K B : Type} (ops : KeyOps K B) (fs : FS B) (opts : Options) (key : K)
    (isWindows : Bool) (home : String) (inputLine saveLine yn : String)
    (passStream : Nat → String) (fuel : Nat) (user host : String) : SKResult B :=
  match keyTypeMapping (ops.keyType key) with
  | none => SKResult.mk [] "" none (CkOutcome.raised ("KeyError: " ++ ops.keyType key))
  | some keyTypeName =>
    let filename :=
      if pyTruthy opts.filename then opts.filename.getD ""
      else
        let defaultPath := getKeyOrDefault opts.filename isWindows home inputLine keyTypeName
        if pyStrip saveLine ≠ "" then pyStrip saveLine else defaultPath
    let proceed := fun (_ : Unit) =>
      let passRes : Option String :=
        if opts.noPassphrase then some ""
        else if pyTruthy opts.pass then opts.pass
        else (passphraseLoop passStream fuel).map (fun r => r.2)
      match passRes with
      | none => SKResult.mk [] filename none CkOutcome.diverged
      | some passUsed =>
        let subtype := opts.subtype.getD (defaultPrivateKeySubtype (ops.keyType key))
        let comment := user ++ "@" ++ host
        match ops.toOpenSSH key subtype passUsed with
        | Except.error e => SKResult.mk [] filename (some subtype) (CkOutcome.raised e)
        | Except.ok priv =>
          let events := [FsEvent.setContent filename priv,
                         FsEvent.chmod filename 0o100600,
                         FsEvent.setContent (filename ++ ".pub") (ops.publicOpenSSH key (some comment))]
          match enumrepresentation opts.format with
          | Except.error e => SKResult.mk events filename (some subtype) (CkOutcome.raised e)
          | Except.ok _ => SKResult.mk events filename (some subtype) CkOutcome.done
    if (fs filename).isSome then
      match yn.toList.head? with
      | none => SKResult.mk [] filename none (CkOutcome.raised "IndexError")
      | some c =>
        if c.toLower ≠ 'y' then SKResult.mk [] filename none (CkOutcome.exit "")
        else proceed ()
    else proceed ()

/-- Result of `changePassPhrase`: the final filesystem, the resolved path,
how many times the old passphrase was prompted for, the `key.type()` of
the loaded key and the final `options["private-key-subtype"]` (both `none`
when execution stopped before they were consulted), and the outcome. -/
structure CPResult (B : Type) where
  fs : FS B
  filename : String
  oldPromptCount : Nat
  keyTypeSeen : Option String
  subtypeUsed : Option String
  outcome : CkOutcome

/-- `changePassPhrase`: resolve the path, load the key (prompting once,
with answer `oldPrompt`, when the key is encrypted and no `--pass` was
given), collect the new passphrase (`--newpass` or the confirmation loop
over `newStream`), resolve the subtype, re-serialize, re-parse the fresh
bytes with the new passphrase, and only on success overwrite the file. -/
def changePassPhrase {K B : Type} (ops : KeyOps K B) (fs : FS B) (opts : Options)
    (isWindows : Bool) (home : String) (inputLine oldPrompt : String)
    (newStream : Nat → String) (fuel : Nat) : CPResult B :=
  let filename := getKeyOrDefault opts.filename isWindows home inputLine "rsa"
  let finish := fun (key : K) (cnt : Nat) =>
    let newpassRes : Option String :=
      if pyTruthy opts.newpass then opts.newpass
      else (passphraseLoop newStream fuel).map (fun r => r.2)
    match newpassRes with
    | none => CPResult.mk fs filename cnt none none CkOutcome.diverged
    | some np =>
      let subtype := opts.subtype.getD (defaultPrivateKeySubtype (ops.keyType key))
      match ops.toOpenSSH key subtype np with
      | Except.error e =>
        CPResult.mk fs filename cnt (some (ops.keyType key)) (some subtype)
          (CkOutcome.exit ("Could not change passphrase: " ++ e))
      | Except.ok newkeydata =>
        match ops.load newkeydata (some np) with
        | Except.error (LoadErr.encrypted e) =>
          CPResult.mk fs filename cnt (some (ops.keyType key)) (some subtype)
            (CkOutcome.exit ("Could not change passphrase: " ++ e))
        | Except.error (LoadErr.badKey e) =>
          CPResult.mk fs filename cnt (some (ops.keyType key)) (some subtype)
            (CkOutcome.exit ("Could not change passphrase: " ++ e))
        | Except.ok _ =>
          CPResult.mk (fun p => if p = filename then some newkeydata else fs p)
            filename cnt (some (ops.keyType key)) (some subtype) CkOutcome.done
  match fs filename with
  | none =>
    CPResult.mk fs filename 0 none none
      (CkOutcome.exit (filename ++ " could not be opened, please specify a file."))
  | some b =>
    match ops.load b none with
    | Except.ok key => finish key 0
    | Except.error (LoadErr.badKey e) =>
      CPResult.mk fs filename 0 none none
        (CkOutcome.exit ("Could not change passphrase: " ++ e))
    | Except.error (LoadErr.encrypted _) =>
      let passUsed := if pyTruthy opts.pass then opts.pass.getD "" else oldPrompt
      let cnt := if pyTruthy opts.pass then 0 else 1
      match ops.load b (some passUsed) with
      | Except.ok key => finish key cnt
      | Except.error (LoadErr.badKey _) =>
        CPResult.mk fs filename cnt none none
          (CkOutcome.exit "Could not change passphrase: old passphrase error")
      | Except.error (LoadErr.encrypted e) =>
        CPResult.mk fs filename cnt none none
          (CkOutcome.exit ("Could not change passphrase: " ++ e))

/-- `os.path.basename` on POSIX paths. -/
def basename (s : String) : String := ((s.splitOn "/").getLast?).getD s

/-- Result of `printFingerprint`: the path actually read, the filesystem
(returned to state that the operation issues no write), the printed line,
and the outcome. -/
structure PFResult (B : Type) where
  filename : String
  fs : FS B
  printed : Option String
  outcome : CkOutcome

/-- The path `printFingerprint` reads: the resolved path, or its `.pub`
sibling when that sibling exists on the filesystem. -/
def fingerprintPath {B : Type} (fs : FS B) (filenameOpt : Option String) (isWindows : Bool)
    (home inputLine : String) : String :=
  let filename0 := getKeyOrDefault filenameOpt isWindows home inputLine "rsa"
  if (fs (filename0 ++ ".pub")).isSome then filename0 ++ ".pub" else filename0

/-- `printFingerprint`: resolve the path, switch to the `.pub` sibling when
it exists, map the fingerprint format, load the key and print
`size fingerprint basename`. -/
def printFingerprint {K B : Type} (ops : KeyOps K B) (fs : FS B) (opts : Options)
    (isWindows : Bool) (home : String) (inputLine : String) : PFResult B :=
  let filename := fingerprintPath fs opts.filename isWindows home inputLine
  match enumrepresentation opts.format with
  | Except.error e => PFResult.mk filename fs none (CkOutcome.raised e)
  | Except.ok fmt =>
    match fs filename with
    | none =>
      PFResult.mk filename fs none
        (CkOutcome.exit (filename ++ " could not be opened, please specify a file."))
    | some b =>
      match ops.load b none with
      | Except.ok key =>
        PFResult.mk filename fs
          (some (toString (ops.size key) ++ " " ++ ops.fingerprint key fmt
            ++ " " ++ basename filename))
          CkOutcome.done
      | Except.error (LoadErr.badKey _) => PFResult.mk filename fs none (CkOutcome.exit "bad key")
      | Except.error (LoadErr.encrypted e) => PFResult.mk filename fs none (CkOutcome.raised e)

/-- Result of `displayPublicKey`: the path read, the printed public key
bytes, and the outcome. -/
structure DPResult (B : Type) where
  filename : String
  printed : Option B
  outcome : CkOutcome

/-- `displayPublicKey`: resolve the path, load the key (prompting for a
passphrase, answered by `passPrompt`, when encrypted and no `--pass` was
given; errors of the second load are uncaught), print the public key. -/
def displayPublicKey {K B : Type} (ops : KeyOps K B) (fs : FS B) (opts : Options)
    (isWindows : Bool) (home : String) (inputLine passPrompt : String) : DPResult B :=
  let filename := getKeyOrDefault opts.filename isWindows home inputLine "rsa"
  match fs filename with
  | none =>
    DPResult.mk filename none
      (CkOutcome.exit (filename ++ " could not be opened, please specify a file."))
  | some b =>
    match ops.load b none with
    | Except.ok key => DPResult.mk filename (some (ops.publicOpenSSH key none)) CkOutcome.done
    | Except.error (LoadErr.badKey m) => DPResult.mk filename none (CkOutcome.raised m)
    | Except.error (LoadErr.encrypted _) =>
      let pw := if pyTruthy opts.pass then opts.pass.getD "" else passPrompt
      match ops.load b (some pw) with
      | Except.ok key => DPResult.mk filename (some (ops.publicOpenSSH key none)) CkOutcome.done
      | Except.error (LoadErr.badKey m) => DPResult.mk filename none (CkOutcome.raised m)
      | Except.error (LoadErr.encrypted m) => DPResult.mk filename none (CkOutcome.raised m)

/-- Stand-in for Python `int(...)` applied to the bits option string:
parses a plain decimal numeral, `none` on anything else (a `ValueError`). -/
def parseDecimal (s : String) : Option Nat :=
  if s.toList ≠ [] ∧ s.toList.all Char.isDigit
  then some (s.toList.foldl (fun n c => n * 10 + (c.toNat - 48)) 0)
  else none

/-- Bit-size resolution in `generateRSAkey`: `options["bits"] = 2048` when
`--bits` is unset, then `int(options["bits"])`. -/
def generateRSAkeyBits (bits : Option String) : Option Nat :=
  parseDecimal (if pyTruthy bits then bits.getD "" else "2048")

/-- Bit-size resolution in `generateDSAkey`: default 1024, then `int`. -/
def generateDSAkeyBits (bits : Option String) : Option Nat :=
  parseDecimal (if pyTruthy bits then bits.getD "" else "1024")

/-- Bit-size resolution in `generateECDSAkey`: `options["bits"] = 256` when
`--bits` is unset (the value is used textually, via `str`). -/
def generateECDSAkeyBits (bits : Option String) : String :=
  if pyTruthy bits then bits.getD "" else "256"

/-- Curve selection in `generateECDSAkey`:
`curve = b"ecdsa-sha2-nistp" + str(options["bits"])` after the default. -/
def generateECDSAcurve (bits : Option String) : String :=
  "ecdsa-sha2-nistp" ++ (if pyTruthy bits then bits.getD "" else "256")

/-! ### Concrete fixtures, used to evaluate the embedding on explicit inputs -/

/-- A provider whose parses always succeed, over trivial keys and `Nat`
bytes: RSA keys, private serialization `7`, public serialization `8`. -/
def kOpsOk : KeyOps Unit Nat where
  load := fun _ _ => Except.ok ()
  keyType := fun _ => "RSA"
  toOpenSSH := fun _ _ _ => Except.ok 7
  publicOpenSSH := fun _ _ => 8
  fingerprint := fun _ _ => "fp"
  size := fun _ => 2048

/-- A provider for which the encoder's fresh output (the bytes `7`) fails
to parse back, while the stored bytes parse fine. -/
def kOpsRoundtripFail : KeyOps Unit Nat where
  load := fun b _ => if b = 7 then Except.error (LoadErr.badKey "rt") else Except.ok ()
  keyType := fun _ => "RSA"
  toOpenSSH := fun _ _ _ => Except.ok 7
  publicOpenSSH := fun _ _ => 8
  fingerprint := fun _ _ => "fp"
  size := fun _ => 2048

/-- A provider whose stored keys are encrypted: parsing without a
passphrase reports `EncryptedKeyError`, parsing with any passphrase
`BadKeyError`. -/
def kOpsEncrypted : KeyOps Unit Nat where
  load := fun _ pw => match pw with
    | none => Except.error (LoadErr.encrypted "enc")
    | some _ => Except.error (LoadErr.badKey "bad")
  keyType := fun _ => "RSA"
  toOpenSSH := fun _ _ _ => Except.ok 7
  publicOpenSSH := fun _ _ => 8
  fingerprint := fun _ _ => "fp"
  size := fun _ => 2048

/-- An empty filesystem. -/
def fsEmpty : FS Nat := fun _ => none

/-- A filesystem holding the single file `"f"` with content `1`. -/
def fsF : FS Nat := fun p => if p = "f" then some 1 else none

/-- A filesystem holding `"f"` (content `1`) and its sibling `"f.pub"`
(content `2`). -/
def fsFPub : FS Nat := fun p =>
  if p = "f.pub" then some 2 else if p = "f" then some 1 else none

/-- Options naming the file `"f"`, with `--no-passphrase` and the default
fingerprint format. -/
def optsF : Options := Options.mk (some "f") none none none none true "sha256-base64"

/-- Options naming `"f"` with a new passphrase and an explicit subtype. -/
def optsNewpass : Options := Options.mk (some "f") none none (some "np") (some "PEM") false "sha256-base64"

/-- Options naming `"f"` with a new passphrase, no old passphrase, and no
explicit subtype. -/
def optsNewpassNoOld : Options := Options.mk (some "f") none none (some "np") none false "sha256-base64"

/-- Options naming `"f"` with `--no-passphrase` and a bogus fingerprint
format. -/
def optsBadFormat : Options := Options.mk (some "f") none none none none true "bogus"

/-- Options leaving the filename unspecified. -/
def optsNoFile : Options := Options.mk none none none none none true "sha256-base64"

/-- A getpass answer stream on which every prompting round mismatches
(entry `2*k` is `k`, entry `2*k+1` is `k+1`) while entries 1 and 2 are
equal. -/
def mismatchedStream (n : Nat) : Nat := if n = 0 then 0 else (n + 1) / 2

/-- A successful generate run: target `"f"` absent, `--no-passphrase`,
valid fingerprint format. -/
def skRunFresh : SKResult Nat :=
  saveKey kOpsOk fsEmpty optsF () false "/h" "" "" "" (fun _ => "") 0 "u" "h"

/-- A generate run over an existing `"f"`, answering `"yolo"` at the
overwrite prompt. -/
def skRunYolo : SKResult Nat :=
  saveKey kOpsOk fsF optsF () false "/h" "" "" "yolo" (fun _ => "") 0 "u" "h"

/-- A generate run over an existing `"f"`, answering `"n"` at the
overwrite prompt. -/
def skRunNo : SKResult Nat :=
  saveKey kOpsOk fsF optsF () false "/h" "" "" "n" (fun _ => "") 0 "u" "h"

/-- A generate run with a bogus `--format`, otherwise successful. -/
def skRunBadFormat : SKResult Nat :=
  saveKey kOpsOk fsEmpty optsBadFormat () false "/h" "" "" "" (fun _ => "") 0 "u" "h"

/-- A generate run with no `--filename` and empty path prompts. -/
def skRunNoFile : SKResult Nat :=
  saveKey kOpsOk fsEmpty optsNoFile () false "/h" "" "" "" (fun _ => "") 0 "u" "h"

/-- A `changePassPhrase` run in which round-trip verification fails. -/
def cpRunRoundtripFail : CPResult Nat :=
  changePassPhrase kOpsRoundtripFail fsF optsNewpass false "/h" "" "" (fun _ => "") 0

/-- A successful `changePassPhrase` run. -/
def cpRunOk : CPResult Nat :=
  changePassPhrase kOpsOk fsF optsNewpassNoOld false "/h" "" "" (fun _ => "") 0

/-- A `changePassPhrase` run on an encrypted key with no `--pass`, whose
prompted old passphrase fails to decrypt. -/
def cpRunEncrypted : CPResult Nat :=
  changePassPhrase kOpsEncrypted fsF optsNewpassNoOld false "/h" "" "old" (fun _ => "") 0

/-- A `changePassPhrase` run with no `--filename`. -/
def cpRunNoFile : CPResult Nat :=
  changePassPhrase kOpsOk fsEmpty optsNoFile false "/h" "" "" (fun _ => "") 0

/-- A `displayPublicKey` run with no `--filename`. -/
def dpRunNoFile : DPResult Nat :=
  displayPublicKey kOpsOk fsEmpty optsNoFile false "/h" "" ""

/-- A `printFingerprint` run with no `--filename`. -/
def pfRunNoFile : PFResult Nat :=
  printFingerprint kOpsOk fsEmpty optsNoFile false "/h" ""

/-- A `printFingerprint` run on `"f"` whose sibling `"f.pub"` exists. -/
def pfRunPub : PFResult Nat :=
  printFingerprint kOpsOk fsFPub optsF false "/h" ""

/-! ### Theorems -/

/-- If some prompting round at or after round `k` reads two equal entries,
the confirmation loop returns with enough fuel. -/
theorem passLoopAux_some_of_eq {α : Type} [DecidableEq α] (stream : Nat → α) :
    ∀ n k, stream (2 * (k + n)) = stream (2 * (k + n) + 1) →
      ∃ r, passphraseLoopAux stream (n + 1) k = some r
  | 0, k, h => by
    refine ⟨(k, stream (2 * k)), ?_⟩
    simp only [passphraseLoopAux]
    rw [if_pos]
    simpa using h
  | n + 1, k, h => by
    by_cases hk : stream (2 * k) = stream (2 * k + 1)
    · exact ⟨(k, stream (2 * k)), by simp [passphraseLoopAux, hk]⟩
    · obtain ⟨r, hr⟩ := passLoopAux_some_of_eq stream n (k + 1) (by
        have hkn : k + 1 + n = k + (n + 1) := by omega
        rw [hkn]; exact h)
      refine ⟨r, ?_⟩
      rw [show passphraseLoopAux stream (n + 1 + 1) k
            = if stream (2 * k) = stream (2 * k + 1) then some (k, stream (2 * k))
              else passphraseLoopAux stream (n + 1) (k + 1) from rfl]
      rw [if_neg hk]
      exact hr

/-- When the confirmation loop returns, it returns the first round at or
after its starting round whose two entries agree, together with that
entry. -/
theorem passLoopAux_sound {α : Type} [DecidableEq α] (stream : Nat → α) :
    ∀ fuel k k' p, passphraseLoopAux stream fuel k = some (k', p) →
      k ≤ k' ∧ p = stream (2 * k') ∧ stream (2 * k') = stream (2 * k' + 1) ∧
      ∀ j, k ≤ j → j < k' → stream (2 * j) ≠ stream (2 * j + 1)
  | 0, k, k', p, h => by simp [passphraseLoopAux] at h
  | fuel + 1, k, k', p, h => by
    by_cases hk : stream (2 * k) = stream (2 * k + 1)
    · simp only [passphraseLoopAux, if_pos hk, Option.some.injEq, Prod.mk.injEq] at h
      obtain ⟨h1, h2⟩ := h
      subst h1
      exact ⟨le_refl _, h2.symm, hk, fun j hj1 hj2 => absurd hj1 (by omega)⟩
    · simp only [passphraseLoopAux, if_neg hk] at h
      obtain ⟨h1, h2, h3, h4⟩ := passLoopAux_sound stream fuel (k + 1) k' p h
      refine ⟨by omega, h2, h3, fun j hj1 hj2 => ?_⟩
      rcases Nat.eq_or_lt_of_le hj1 with hj | hj
      · subst hj; exact hk
      · exact h4 j hj hj2

/-- C6 counterexample: on the stream whose entries 1 and 2 are equal but
whose prompting rounds each read two distinct entries, the loop never
terminates even though the stream contains two consecutive matching
entries — termination is decided by the entries of one round, not by
arbitrary consecutive entries. -/
theorem passphraseLoop_misaligned_diverges :
    (∃ i, mismatchedStream i = mismatchedStream (i + 1)) ∧
    ∀ fuel, passphraseLoop mismatchedStream fuel = none := by
  constructor
  · exact ⟨1, by decide⟩
  · have key : ∀ k, mismatchedStream (2 * k) ≠ mismatchedStream (2 * k + 1) := by
      intro k
      rcases Nat.eq_zero_or_pos k with hk | hk
      · subst hk; decide
      · have h1 : 2 * k ≠ 0 := by omega
        have h2 : 2 * k + 1 ≠ 0 := by omega
        simp only [mismatchedStream, if_neg h1, if_neg h2]
        omega
    have aux : ∀ fuel k, passphraseLoopAux mismatchedStream fuel k = none := by
      intro fuel
      induction fuel with
      | zero => intro k; rfl
      | succ n ih => intro k; simp [passphraseLoopAux, key k, ih]
    intro fuel
    exact aux fuel 0

/-- C6 (amended): the interactive passphrase loop accepts only when the
two entries of one prompting round (entries `2*k` and `2*k+1`) agree,
re-prompting on every mismatched round without a retry limit; it
terminates exactly when some round's two entries agree, and the accepted
passphrase is the agreed entry of the first such round (an agreed empty
entry being accepted like any other). -/
theorem passphraseLoop_accepts_matching_round {α : Type} [DecidableEq α] (stream : Nat → α) :
    ((∃ fuel r, passphraseLoop stream fuel = some r) ↔
      ∃ k, stream (2 * k) = stream (2 * k + 1)) ∧
    ∀ fuel k p, passphraseLoop stream fuel = some (k, p) →
      p = stream (2 * k) ∧ stream (2 * k) = stream (2 * k + 1) ∧
      ∀ j, j < k → stream (2 * j) ≠ stream (2 * j + 1) := by
  constructor
  · constructor
    · rintro ⟨fuel, ⟨k, p⟩, h⟩
      obtain ⟨-, -, h3, -⟩ := passLoopAux_sound stream fuel 0 k p h
      exact ⟨k, h3⟩
    · rintro ⟨k, hk⟩
      obtain ⟨r, hr⟩ := passLoopAux_some_of_eq stream k 0 (by simpa using hk)
      exact ⟨k + 1, r, hr⟩
  · intro fuel k p h
    obtain ⟨-, h2, h3, h4⟩ := passLoopAux_sound stream fuel 0 k p h
    exact ⟨h2, h3, fun j hj => h4 j (Nat.zero_le j) hj⟩

/-- C6 witness: a stream of empty entries is accepted at round 0 and the
accepted passphrase is the (empty) agreed entry. -/
theorem passphraseLoop_accepts_matching_round_witness :
    passphraseLoop (fun _ : Nat => "") 1 = some (0, "") ∧
    ("" : String) = (fun _ : Nat => "") (2 * 0) :=
  ⟨rfl, ((passphraseLoop_accepts_matching_round (fun _ : Nat => "")).2 1 0 "" rfl).1⟩

/-- C8: when `--bits` is unset the per-type defaults are 2048 (RSA),
1024 (DSA) and 256 (ECDSA), and the ECDSA curve name is built from the
specified-or-defaulted bit size. -/
theorem generateKey_default_bits :
    generateRSAkeyBits none = some 2048 ∧
    generateDSAkeyBits none = some 1024 ∧
    generateECDSAkeyBits none = "256" ∧
    ∀ bits, generateECDSAcurve bits = "ecdsa-sha2-nistp" ++ generateECDSAkeyBits bits := by
  refine ⟨by decide, by decide, rfl, fun bits => rfl⟩

/-- A path never equals itself with `".pub"` appended. -/
theorem ne_append_pub (s : String) : s ≠ s ++ ".pub" := by
  intro h
  have hl := congrArg String.length h
  rw [String.length_append] at hl
  have h4 : (".pub" : String).length = 4 := rfl
  omega

/-- C2 counterexample: a successful generate run writes the private key
and only afterwards chmods it, so with a default creation mode of `0o644`
(420) the filesystem state right after the first event holds the private
file `"f"` with mode 420, whose group/other bits `420 % 64 = 36` are not
zero — the permissions pass through a state allowing group/other access. -/
theorem saveKey_world_readable_window :
    skRunFresh.outcome = CkOutcome.done ∧
    ((fsStates 420 (fun _ => none) skRunFresh.events).get? 1).map (fun st => st "f")
      = some (some (7, 420)) ∧
    420 % 64 ≠ 0 := by
  refine ⟨by decide, by decide, by decide⟩

/-- C2 (amended): a successful generate run issues exactly three
filesystem events — write the private file, chmod it to `0o100600`
immediately afterwards, then write the public file, which is never
chmodded — so at the operation's return the private file is restricted to
owner-only read/write; the restriction is applied by a chmod after the
content write, not at creation. -/
theorem saveKey_owner_only_at_return {K B : Type} (ops : KeyOps K B) (fs : FS B)
    (opts : Options) (key : K) (isWindows : Bool) (home inputLine saveLine yn : String)
    (passStream : Nat → String) (fuel : Nat) (user host : String) (r : SKResult B)
    (hr : r = saveKey ops fs opts key isWindows home inputLine saveLine yn passStream fuel user host) :
    r.outcome = CkOutcome.done →
    ∃ nb, r.events = [FsEvent.setContent r.filename nb,
        FsEvent.chmod r.filename 0o100600,
        FsEvent.setContent (r.filename ++ ".pub")
          (ops.publicOpenSSH key (some (user ++ "@" ++ host)))] ∧
      ∀ (defaultMode : Nat) (st : FsPerm B),
        runEvents defaultMode st r.events r.filename = some (nb, 0o100600) := by
  subst hr
  simp only [saveKey]
  repeat' split
  all_goals intro hd
  all_goals first
  | exact CkOutcome.noConfusion hd
  | exact ⟨_, rfl, fun defaultMode st => by
      simp [runEvents, applyEvent, List.foldl, ne_append_pub]⟩

/-- C2 witness: the amended statement instantiated at the concrete
successful run. -/
theorem saveKey_owner_only_at_return_witness :
    ∃ nb, skRunFresh.events = [FsEvent.setContent skRunFresh.filename nb,
        FsEvent.chmod skRunFresh.filename 0o100600,
        FsEvent.setContent (skRunFresh.filename ++ ".pub")
          (kOpsOk.publicOpenSSH () (some ("u" ++ "@" ++ "h")))] ∧
      ∀ (defaultMode : Nat) (st : FsPerm Nat),
        runEvents defaultMode st skRunFresh.events skRunFresh.filename
          = some (nb, 0o100600) :=
  saveKey_owner_only_at_return kOpsOk fsEmpty optsF () false "/h" "" "" ""
    (fun _ => "") 0 "u" "h" skRunFresh rfl (by decide)

/-- C3 counterexample: with an existing target file, the overwrite prompt
answer `"yolo"` is not an explicit yes, yet the run does not abort — the
code tests only the first character, so it overwrites and completes. -/
theorem saveKey_y_prefix_overwrites :
    ("yolo" ≠ "yes") ∧ skRunYolo.outcome = CkOutcome.done ∧ skRunYolo.events ≠ [] := by
  refine ⟨by decide, by decide, by decide⟩

/-- C3 (amended): with an existing target file, the run aborts with no
write exactly when the lowercased first character of the overwrite answer
is not `'y'`; any answer beginning with `'y'` or `'Y'` is treated as
affirmative (and an empty answer raises `IndexError`, also without
writing). -/
theorem saveKey_non_y_aborts {K B : Type} (ops : KeyOps K B) (fs : FS B)
    (opts : Options) (key : K) (isWindows : Bool) (home inputLine saveLine yn : String)
    (passStream : Nat → String) (fuel : Nat) (user host : String) (r : SKResult B)
    (hr : r = saveKey ops fs opts key isWindows home inputLine saveLine yn passStream fuel user host) :
    ∀ f, opts.filename = some f → f ≠ "" →
    ∀ ktn, keyTypeMapping (ops.keyType key) = some ktn →
    (fs f).isSome = true →
    ∀ c cs, yn.toList = c :: cs →
    (c.toLower ≠ 'y' → r.outcome = CkOutcome.exit "" ∧ r.events = []) ∧
    (c.toLower = 'y' → r.outcome ≠ CkOutcome.exit "") := by
  subst hr
  intro f hf hfne ktn hmap hex c cs hyn
  simp only [saveKey, hmap, hf, hyn, pyTruthy, Option.getD_some]
  constructor
  · intro hc
    simp [hc, hfne, hex]
  · intro hc
    simp only [hc, hfne, hex, ne_eq, not_true_eq_false, Bool.false_eq_true,
      if_false, ite_false, decide_not]
    repeat' split
    all_goals simp_all

/-- C3 witness: answering `"n"` at the overwrite prompt aborts with no
write. -/
theorem saveKey_non_y_aborts_witness :
    skRunNo.outcome = CkOutcome.exit "" ∧ skRunNo.events = [] :=
  ((saveKey_non_y_aborts kOpsOk fsF optsF () false "/h" "" "" "n" (fun _ => "") 0 "u" "h"
    skRunNo rfl "f" rfl (by decide) "rsa" rfl (by decide) 'n' [] (by decide)).1 (by decide))

/-- The path `changePassPhrase` operates on is the resolved one, on every
control path. -/
theorem changePassPhrase_filename {K B : Type} (ops : KeyOps K B) (fs : FS B) (opts : Options)
    (isWindows : Bool) (home inputLine oldPrompt : String) (newStream : Nat → String) (fuel : Nat) :
    (changePassPhrase ops fs opts isWindows home inputLine oldPrompt newStream fuel).filename
      = getKeyOrDefault opts.filename isWindows home inputLine "rsa" := by
  simp only [changePassPhrase]
  repeat' split
  all_goals rfl

/-- The path `displayPublicKey` operates on is the resolved one. -/
theorem displayPublicKey_filename {K B : Type} (ops : KeyOps K B) (fs : FS B) (opts : Options)
    (isWindows : Bool) (home inputLine passPrompt : String) :
    (displayPublicKey ops fs opts isWindows home inputLine passPrompt).filename
      = getKeyOrDefault opts.filename isWindows home inputLine "rsa" := by
  simp only [displayPublicKey]
  repeat' split
  all_goals rfl

/-- The path `printFingerprint` reads is `fingerprintPath`, on every
control path. -/
theorem printFingerprint_filename {K B : Type} (ops : KeyOps K B) (fs : FS B) (opts : Options)
    (isWindows : Bool) (home inputLine : String) :
    (printFingerprint ops fs opts isWindows home inputLine).filename
      = fingerprintPath fs opts.filename isWindows home inputLine := by
  simp only [printFingerprint]
  repeat' split
  all_goals rfl

/-- `printFingerprint` returns the filesystem unchanged (it issues no
write). -/
theorem printFingerprint_fs {K B : Type} (ops : KeyOps K B) (fs : FS B) (opts : Options)
    (isWindows : Bool) (home inputLine : String) :
    (printFingerprint ops fs opts isWindows home inputLine).fs = fs := by
  simp only [printFingerprint]
  repeat' split
  all_goals rfl

/-- The private path `_saveKey` operates on, once the key type is mapped. -/
theorem saveKey_filename {K B : Type} (ops : KeyOps K B) (fs : FS B) (opts : Options)
    (key : K) (isWindows : Bool) (home inputLine saveLine yn : String)
    (passStream : Nat → String) (fuel : Nat) (user host : String)
    (ktn : String) (hmap : keyTypeMapping (ops.keyType key) = some ktn) :
    (saveKey ops fs opts key isWindows home inputLine saveLine yn passStream fuel user host).filename
      = (if pyTruthy opts.filename then opts.filename.getD ""
         else if pyStrip saveLine ≠ "" then pyStrip saveLine
         else getKeyOrDefault opts.filename isWindows home inputLine ktn) := by
  simp only [saveKey, hmap]
  repeat' split
  all_goals rfl

/-- C9: a generate run whose fingerprint format is invalid but which
reaches the write stage writes both the private and the public key file
and only afterwards raises the unsupported-format error, leaving both
freshly written files on disk. -/
theorem saveKey_format_error_after_writes {K B : Type} (ops : KeyOps K B) (fs : FS B)
    (opts : Options) (key : K) (isWindows : Bool) (home inputLine saveLine yn : String)
    (passStream : Nat → String) (fuel : Nat) (user host : String) (r : SKResult B)
    (hr : r = saveKey ops fs opts key isWindows home inputLine saveLine yn passStream fuel user host) :
    ∀ f, opts.filename = some f → f ≠ "" →
    ∀ ktn, keyTypeMapping (ops.keyType key) = some ktn →
    fs f = none →
    opts.noPassphrase = true →
    ∀ nb, ops.toOpenSSH key (opts.subtype.getD (defaultPrivateKeySubtype (ops.keyType key))) ""
      = Except.ok nb →
    ∀ e, enumrepresentation opts.format = Except.error e →
    r.outcome = CkOutcome.raised e ∧
    r.events = [FsEvent.setContent f nb, FsEvent.chmod f 0o100600,
      FsEvent.setContent (f ++ ".pub") (ops.publicOpenSSH key (some (user ++ "@" ++ host)))] := by
  subst hr
  intro f hf hfne ktn hmap hnone hnp nb hser e hfmt
  simp [saveKey, hmap, hf, hfne, hnone, hnp, hser, hfmt, pyTruthy]

/-- C9 witness: the generate run with format `"bogus"` raises the
unsupported-format error after having written both files. -/
theorem saveKey_format_error_after_writes_witness :
    skRunBadFormat.outcome = CkOutcome.raised "Unsupported fingerprint format: bogus" ∧
    skRunBadFormat.events = [FsEvent.setContent "f" 7, FsEvent.chmod "f" 0o100600,
      FsEvent.setContent ("f" ++ ".pub") 8] :=
  saveKey_format_error_after_writes kOpsOk fsEmpty optsBadFormat () false "/h" "" "" ""
    (fun _ => "") 0 "u" "h" skRunBadFormat rfl "f" rfl (by decide) "rsa" rfl rfl rfl 7 rfl
    "Unsupported fingerprint format: bogus" (by simp [enumrepresentation, optsBadFormat])

/-- C4: whenever generate (`_saveKey`) or `changePassPhrase` resolves the
private-key subtype, the subtype used for serialization is the
caller-specified one when given (whatever the key type), and otherwise
the per-key-type default: `"v1"` for Ed25519 keys, `"PEM"` for all other
key types. -/
theorem privateKeySubtype_resolution {K B : Type} (ops : KeyOps K B) (fs : FS B)
    (opts : Options) (key : K) (isWindows : Bool)
    (home inputLine saveLine yn oldPrompt : String)
    (stream : Nat → String) (fuel : Nat) (user host : String)
    (r1 : SKResult B) (r2 : CPResult B)
    (h1 : r1 = saveKey ops fs opts key isWindows home inputLine saveLine yn stream fuel user host)
    (h2 : r2 = changePassPhrase ops fs opts isWindows home inputLine oldPrompt stream fuel) :
    (∀ s, r1.subtypeUsed = some s →
      s = opts.subtype.getD (if ops.keyType key = "Ed25519" then "v1" else "PEM")) ∧
    (∀ s kt, r2.keyTypeSeen = some kt → r2.subtypeUsed = some s →
      s = opts.subtype.getD (if kt = "Ed25519" then "v1" else "PEM")) := by
  subst h1; subst h2
  constructor
  · intro s hs
    simp only [saveKey] at hs
    repeat' split at hs
    all_goals simp_all [defaultPrivateKeySubtype]
  · intro s kt hk hs
    have hks := And.intro hk hs
    clear hk hs
    simp only [changePassPhrase] at hks
    repeat' split at hks
    all_goals obtain ⟨hk2, hs2⟩ := hks
    all_goals first
    | exact Option.noConfusion hk2
    | (injection hk2 with hk3
       injection hs2 with hs3
       subst hk3
       subst hs3
       rfl)

/-- C4 witness: at the concrete runs, the resolved subtype equals the
per-key-type default (`"PEM"` for the RSA fixtures). -/
theorem privateKeySubtype_resolution_witness :
    (("PEM" : String)
        = optsF.subtype.getD (if kOpsOk.keyType () = "Ed25519" then "v1" else "PEM")) ∧
    (("PEM" : String)
        = optsNewpassNoOld.subtype.getD (if "RSA" = "Ed25519" then "v1" else "PEM")) :=
  ⟨(privateKeySubtype_resolution kOpsOk fsEmpty optsF () false "/h" "" "" "" ""
      (fun _ => "") 0 "u" "h" skRunFresh
      (changePassPhrase kOpsOk fsEmpty optsF false "/h" "" "" (fun _ => "") 0)
      rfl rfl).1 "PEM" (by decide),
   (privateKeySubtype_resolution kOpsOk fsF optsNewpassNoOld () false "/h" "" "" "" ""
      (fun _ => "") 0 "u" "h"
      (saveKey kOpsOk fsF optsNewpassNoOld () false "/h" "" "" "" (fun _ => "") 0 "u" "h")
      cpRunOk rfl rfl).2 "PEM" "RSA" (by decide) (by decide)⟩

/-- C1: `changePassPhrase` verifies before it writes: every run that does
not complete leaves the filesystem byte-for-byte unchanged (in particular
every run in which the round-trip re-parse of the fresh encoding fails,
which exits with an error), and a completed run has written, at the
resolved path only, exactly bytes that re-parse successfully with the new
passphrase. -/
theorem changePassPhrase_verify_before_write {K B : Type} (ops : KeyOps K B) (fs : FS B)
    (opts : Options) (isWindows : Bool) (home inputLine oldPrompt : String)
    (newStream : Nat → String) (fuel : Nat) (r : CPResult B)
    (hr : r = changePassPhrase ops fs opts isWindows home inputLine oldPrompt newStream fuel) :
    (r.outcome ≠ CkOutcome.done → r.fs = fs) ∧
    (r.outcome = CkOutcome.done →
      ∃ nb np k, r.fs r.filename = some nb ∧ ops.load nb (some np) = Except.ok k ∧
        ∀ p, p ≠ r.filename → r.fs p = fs p) := by
  subst hr
  simp only [changePassPhrase]
  repeat' split
  all_goals refine ⟨fun hnd => ?_, fun hd => ?_⟩
  all_goals first
  | rfl
  | exact CkOutcome.noConfusion hd
  | exact absurd rfl hnd
  | refine ⟨_, _, _, by exact if_pos rfl, by assumption, fun p hp => if_neg hp⟩

/-- C1 witness: in the concrete run whose round-trip verification fails
the operation exits and the file content is unchanged. -/
theorem changePassPhrase_verify_before_write_witness :
    cpRunRoundtripFail.fs = fsF :=
  (changePassPhrase_verify_before_write kOpsRoundtripFail fsF optsNewpass false "/h" "" ""
    (fun _ => "") 0 cpRunRoundtripFail rfl).1 (by decide)

/-- C5: on an encrypted key with no old passphrase supplied,
`changePassPhrase` prompts for it exactly once, and when decryption with
the prompted passphrase fails it exits with the old-passphrase error —
with no further prompt or retry and the filesystem unchanged. -/
theorem changePassPhrase_single_prompt_no_retry {K B : Type} (ops : KeyOps K B) (fs : FS B)
    (opts : Options) (isWindows : Bool) (home inputLine oldPrompt : String)
    (newStream : Nat → String) (fuel : Nat) (r : CPResult B)
    (hr : r = changePassPhrase ops fs opts isWindows home inputLine oldPrompt newStream fuel) :
    ∀ b m, fs (getKeyOrDefault opts.filename isWindows home inputLine "rsa") = some b →
    ops.load b none = Except.error (LoadErr.encrypted m) →
    pyTruthy opts.pass = false →
    r.oldPromptCount = 1 ∧
    ∀ m2, ops.load b (some oldPrompt) = Except.error (LoadErr.badKey m2) →
      r.outcome = CkOutcome.exit "Could not change passphrase: old passphrase error"
        ∧ r.fs = fs := by
  subst hr
  intro b m hb he hp
  simp only [changePassPhrase, hb, he, hp, Bool.false_eq_true, if_false, ite_false]
  constructor
  · repeat' split
    all_goals rfl
  · intro m2 h2
    simp [h2]

/-- C5 witness: the concrete encrypted run prompts once, exits with the
old-passphrase error and leaves the filesystem unchanged. -/
theorem changePassPhrase_single_prompt_no_retry_witness :
    cpRunEncrypted.oldPromptCount = 1 ∧
    cpRunEncrypted.outcome = CkOutcome.exit "Could not change passphrase: old passphrase error" ∧
    cpRunEncrypted.fs = fsF := by
  have h := changePassPhrase_single_prompt_no_retry kOpsEncrypted fsF optsNewpassNoOld false
    "/h" "" "old" (fun _ => "") 0 cpRunEncrypted rfl 1 "enc" (by decide) rfl (by decide)
  exact ⟨h.1, (h.2 "bad" rfl).1, (h.2 "bad" rfl).2⟩

/-- C7: `printFingerprint` reads the `.pub` sibling whenever that sibling
exists, modifies no file, and on success prints the loaded key's size,
its fingerprint in the format mapped from the requested format option,
and the basename of the file read. -/
theorem printFingerprint_prefers_pub_sibling {K B : Type} (ops : KeyOps K B) (fs : FS B)
    (opts : Options) (isWindows : Bool) (home inputLine : String) (r : PFResult B)
    (hr : r = printFingerprint ops fs opts isWindows home inputLine) :
    r.fs = fs ∧
    ((fs (getKeyOrDefault opts.filename isWindows home inputLine "rsa" ++ ".pub")).isSome = true →
      r.filename = getKeyOrDefault opts.filename isWindows home inputLine "rsa" ++ ".pub") ∧
    (∀ b key fmt, enumrepresentation opts.format = Except.ok fmt →
      fs (fingerprintPath fs opts.filename isWindows home inputLine) = some b →
      ops.load b none = Except.ok key →
      r.printed = some (toString (ops.size key) ++ " " ++ ops.fingerprint key fmt
        ++ " " ++ basename (fingerprintPath fs opts.filename isWindows home inputLine))) := by
  subst hr
  refine ⟨printFingerprint_fs ops fs opts isWindows home inputLine, fun hpub => ?_,
    fun b key fmt hfmt hb hl => ?_⟩
  · rw [printFingerprint_filename, fingerprintPath]
    simp [hpub]
  · simp only [printFingerprint, hfmt, hb, hl]

/-- C7 witness: on the filesystem holding `"f"` and `"f.pub"`, the run
reads `"f.pub"`, leaves the filesystem unchanged and prints the
fingerprint line for the requested format. -/
theorem printFingerprint_prefers_pub_sibling_witness :
    pfRunPub.fs = fsFPub ∧
    pfRunPub.filename = getKeyOrDefault optsF.filename false "/h" "" "rsa" ++ ".pub" ∧
    pfRunPub.printed = some (toString (kOpsOk.size ()) ++ " "
      ++ kOpsOk.fingerprint () FingerprintFormat.SHA256_BASE64 ++ " "
      ++ basename (fingerprintPath fsFPub optsF.filename false "/h" "")) := by
  have h := printFingerprint_prefers_pub_sibling kOpsOk fsFPub optsF false "/h" "" pfRunPub rfl
  exact ⟨h.1, h.2.1 (by decide),
    h.2.2 2 () FingerprintFormat.SHA256_BASE64 (by simp [enumrepresentation, optsF])
      (by decide) rfl⟩

/-- Fusing the literal parts of the default path. -/
theorem append_id_rsa (h : String) : h ++ "/.ssh/id_" ++ "rsa" = h ++ "/.ssh/id_rsa" := by
  apply String.ext
  simp only [String.data_append, List.append_assoc]
  congr 1

/-- C10: with no filename specified (and empty answers to the path
prompts, on a non-Windows platform), `printFingerprint`,
`changePassPhrase` and `displayPublicKey` all resolve the default path
`<home>/.ssh/id_rsa`, irrespective of the key being operated on; only
generate (`_saveKey`) derives the default path's suffix from the
generated key's type. -/
theorem default_path_id_rsa {K B : Type} (ops : KeyOps K B) (fs : FS B) (opts : Options)
    (key : K) (home oldPrompt passPrompt yn : String) (stream : Nat → String) (fuel : Nat)
    (user host : String)
    (hfn : pyTruthy opts.filename = false) :
    (changePassPhrase ops fs opts false home "" oldPrompt stream fuel).filename
        = home ++ "/.ssh/id_rsa" ∧
    (displayPublicKey ops fs opts false home "" passPrompt).filename = home ++ "/.ssh/id_rsa" ∧
    (printFingerprint ops fs opts false home "").filename =
      (if (fs (home ++ "/.ssh/id_rsa" ++ ".pub")).isSome = true
        then home ++ "/.ssh/id_rsa" ++ ".pub" else home ++ "/.ssh/id_rsa") ∧
    (∀ ktn, keyTypeMapping (ops.keyType key) = some ktn →
      (saveKey ops fs opts key false home "" "" yn stream fuel user host).filename
        = home ++ "/.ssh/id_" ++ ktn) := by
  have hgkd : getKeyOrDefault opts.filename false home "" "rsa" = home ++ "/.ssh/id_rsa" := by
    rw [getKeyOrDefault, hfn]
    simpa using append_id_rsa home
  refine ⟨?_, ?_, ?_, fun ktn hmap => ?_⟩
  · rw [changePassPhrase_filename, hgkd]
  · rw [displayPublicKey_filename, hgkd]
  · rw [printFingerprint_filename, fingerprintPath, hgkd]
  · rw [saveKey_filename ops fs opts key false home "" "" yn stream fuel user host ktn hmap,
      hfn, getKeyOrDefault, hfn]
    have ht : pyStrip "" = "" := by decide
    simp [ht]

/-- C10 witness: the concrete no-filename runs resolve `"/h/.ssh/id_rsa"`,
and the generate run resolves `"/h/.ssh/id_rsa"` through the key-type
suffix `"rsa"`. -/
theorem default_path_id_rsa_witness :
    cpRunNoFile.filename = "/h" ++ "/.ssh/id_rsa" ∧
    dpRunNoFile.filename = "/h" ++ "/.ssh/id_rsa" ∧
    skRunNoFile.filename = "/h" ++ "/.ssh/id_" ++ "rsa" := by
  have h := default_path_id_rsa kOpsOk fsEmpty optsNoFile () "/h" "" "" "" (fun _ => "") 0
    "u" "h" (by decide)
  exact ⟨h.1, h.2.1, h.2.2.2 "rsa" rfl⟩

end Ckeygen
